import Mathlib

/-!
Verification of the vic in-guest supervisor (tether) core against its
specification: the child reaper drain loop (`childReaper`, `stopReaper` in
the tether package) and the Toolbox extension (`lib/tether/toolbox.go`).

The Go code is shallowly embedded: the reaper's per-wake-up drain loop
becomes a recursive function over the stream of `Wait4` results, the
session table becomes an association list keyed by PID, and the Toolbox
handlers become pure functions whose OS side effects (signal delivery,
forced kill, log lines) are recorded in explicit result structures.
-/

namespace Vic.Tether

/-! ## Wait status accessors

The reaper inspects `syscall.WaitStatus` through `Exited`, `Signaled` and
`ExitStatus`.  These are the Linux definitions used by the Go runtime:
the status is a machine word; the low 7 bits are 0 for a normal exit,
0x7f for a stop, and the terminating signal number otherwise; the exit
code sits in bits 8..15 and `ExitStatus` is `-1` for a non-exit. -/

def waitMask : Nat := 0x7f

def statusExited (w : Nat) : Bool := w &&& waitMask == 0

def statusSignaled (w : Nat) : Bool :=
  w &&& waitMask != 0x7f && w &&& waitMask != 0

def statusExitStatus (w : Nat) : Int :=
  if statusExited w then ((w >>> 8) &&& 0xff : Nat) else -1

/-! ## Session table -/

/-- The per-session record, with the fields the reaper and the Toolbox
extension read and write: the logical ID, the configured stop signal name,
and the exit status recorded at reap time. -/
structure SessionConfig where
  ID : String
  StopSignal : String
  ExitStatus : Int
deriving Repr, DecidableEq

/-- Session table lookup by PID (`Lookup(pid) -> (session, found)`),
on the table represented as an association list keyed by OS PID. -/
def lookupPid (table : List (Nat × SessionConfig)) (pid : Nat) :
    Option SessionConfig :=
  (table.find? (fun e => e.1 == pid)).map (fun e => e.2)

/-- Modelled from the spec: `removeChildPid` (the Session Table's
`Remove(pid) -> (session, found)` operation) is called by `childReaper`
but its defining file is not among the sampled sources.  Per the spec it
removes the entry for `pid` and reports whether one was found; `Remove`
is the single authoritative transition to the reaped terminal state, so
a successful lookup by that PID must be impossible afterwards. -/
def removeChildPid (table : List (Nat × SessionConfig)) (pid : Nat) :
    Option SessionConfig × List (Nat × SessionConfig) :=
  match table.find? (fun e => e.1 == pid) with
  | some e => (some e.2, table.filter (fun e => e.1 != pid))
  | none => (none, table)

/-! ## The child reaper drain loop -/

/-- One result of the non-blocking `Wait4(-1, ..., WNOHANG|..., nil)` call:
PID 0 (no process wishes to report status), the `ECHILD` error (no such
child), some other wait error, or a status change for a concrete PID. -/
inductive WaitEvent where
  | noChild
  | echild
  | waitErr
  | event (pid : Nat) (status : Nat)
deriving Repr, DecidableEq

/-- The observable state of one drain pass: the session table, the
sequence of `handleSessionExit` invocations (exit-completion callbacks,
with the session as handed over, its `ExitStatus` recorded), the PIDs
logged as reaped adopted zombies, the number of `Wait4` calls made, and
the number of wait errors logged via `log.Warnf`. -/
structure DrainState where
  table : List (Nat × SessionConfig)
  exits : List (Nat × SessionConfig)
  zombieLogs : List Nat
  waitCalls : Nat
  waitErrors : Nat
deriving Repr, DecidableEq

/-- The handling of one successful `Wait4` result inside `childReaper`'s
drain loop: non-exit status changes (stopped/continued) get no reaping or
exit handling; a true exit or signal termination removes the session from
the table and, if found, records `status.ExitStatus()` and invokes
`handleSessionExit`; if not found the PID is logged as an adopted zombie. -/
def reapOne (st : DrainState) (pid : Nat) (status : Nat) : DrainState :=
  let st := { st with waitCalls := st.waitCalls + 1 }
  if !statusExited status && !statusSignaled status then
    st
  else
    match removeChildPid st.table pid with
    | (some session, table') =>
      { st with
        table := table'
        exits := st.exits ++ [(pid, { session with ExitStatus := statusExitStatus status })] }
    | (none, _) =>
      { st with zombieLogs := st.zombieLogs ++ [pid] }

/-- `childReaper`'s per-notification drain loop: before each reap attempt
it polls the `done` channel (`done i` is whether shutdown had been
signalled when iteration `i` ran) and bails out if shutdown was requested;
otherwise it makes the non-blocking wait call, breaking on PID 0 or
`ECHILD` (normal loop exit), breaking with a warning on any other wait
error, and otherwise handling the reported PID and looping. -/
def drain (done : Nat → Bool) : Nat → List WaitEvent → DrainState → DrainState
  | _, [], st => st
  | i, ev :: rest, st =>
    if done i then st
    else
      match ev with
      | .noChild => { st with waitCalls := st.waitCalls + 1 }
      | .echild => { st with waitCalls := st.waitCalls + 1 }
      | .waitErr => { st with waitCalls := st.waitCalls + 1, waitErrors := st.waitErrors + 1 }
      | .event pid status => drain done (i + 1) rest (reapOne st pid status)

/-- The `defer`red `recover()` wrapping each notification's handler body:
a body that runs to completion contributes its final state; a body that
panics has its panic value caught and printed, and the state it had
reached is kept. The body returns its final state together with the panic
value, if it panicked. -/
def recoverWrap (body : DrainState → DrainState × Option String)
    (st : DrainState) : DrainState × List String :=
  match body st with
  | (st', none) => (st', [])
  | (st', some r) => (st', ["Recovered in childReaper " ++ r])

/-- The `for range t.incoming` notification loop of `childReaper`: each
notification runs the handler body under the recover wrapper, then the
loop continues with the next notification. -/
def childReaperLoop (body : DrainState → DrainState × Option String) :
    List Unit → DrainState → DrainState × List String
  | [], st => (st, [])
  | _ :: rest, st =>
    let r1 := recoverWrap body st
    let r2 := childReaperLoop body rest r1.1
    (r2.1, r1.2 ++ r2.2)

/-! ## Reaper shutdown (`stopReaper`) -/

/-- The three externally visible steps of `stopReaper`, in the order the
code can perform them. -/
inductive ShutdownStep where
  | resetNotifier
  | signalDone
  | closeIncoming
deriving Repr, DecidableEq

/-- The sequence of effects `stopReaper` performs: `signal.Reset(SIGCHLD)`
(stop listening for notifications), `close(t.done)` (signal the drain loop
to stop), `close(t.incoming)` (stop delivering further notifications). -/
def stopReaper : List ShutdownStep :=
  [ShutdownStep.resetNotifier, ShutdownStep.signalDone, ShutdownStep.closeIncoming]

/-! ## Toolbox extension (`lib/tether/toolbox.go`)

The Toolbox wraps the vsphere toolbox service; its handlers act on the
currently bound session (`t.sess.session`).  OS side effects — signal
delivery, the forced kill, log lines — and the two event sources halt
races on (`t.stop` versus the 10 second timer) are made explicit. -/

/-- Modelled from the spec: `msgs.SignalMsg.FromString`/`Signum`
(package `cmd/tether/msgs`, not among the sampled sources) parse a signal
name such as `TERM` into its number, failing on an unrecognised name;
the spec's default stop signal is the terminate signal. -/
def signalFromString (name : String) : Option Nat :=
  match name with
  | "HUP" => some 1
  | "INT" => some 2
  | "QUIT" => some 3
  | "KILL" => some 9
  | "USR1" => some 10
  | "USR2" => some 12
  | "TERM" => some 15
  | _ => none

/-- `Toolbox.killHelper`: an empty signal name defaults to `TERM`; the
name is parsed into a signal number, failing on an unknown name; the
signal is then delivered to the session's process (`signalErr` models a
`Process.Signal` failure).  On success the delivered signal number is
returned as the recorded effect. -/
def killHelper (session : SessionConfig) (name : String)
    (signalErr : Option String) : Except String Nat :=
  let name := if name = "" then "TERM" else name
  match signalFromString name with
  | none => .error ("unknown signal: " ++ name)
  | some num =>
    match signalErr with
    | some e => .error ("failed to signal " ++ session.ID ++ ": " ++ e)
    | none => .ok num

/-- `Toolbox.kill`: fails if no session is bound, else delegates to
`killHelper` under the session lock. -/
def kill (sess : Option SessionConfig) (name : String)
    (signalErr : Option String) : Except String Nat :=
  match sess with
  | none => .error "failed to kill container: process not found"
  | some session => killHelper session name signalErr

/-- Outcome of `Toolbox.halt`: the returned error, the stop signal
delivered to the bound session (if any), and whether the grace period
expired and `Process.Kill` was invoked. -/
structure HaltResult where
  err : Option String
  signaled : Option Nat
  forcedKill : Bool
deriving Repr, DecidableEq

/-- `Toolbox.halt`: with no bound session it errors out; otherwise it
delivers the session's configured stop signal via `killHelper`
(propagating its error), then races the `t.stop` channel against the
10 second grace timer: if the extension stops within the grace period
halt returns nil with no kill, otherwise it calls `Process.Kill` and
returns that call's error (`killErr`). `exitedWithinGrace` is which of
the two race arms fired. -/
def halt (sess : Option SessionConfig) (signalErr : Option String)
    (exitedWithinGrace : Bool) (killErr : Option String) : HaltResult :=
  match sess with
  | none => ⟨some "failed to halt container: not initialized yet", none, false⟩
  | some session =>
    match killHelper session session.StopSignal signalErr with
    | .error e => ⟨some e, none, false⟩
    | .ok num =>
      if exitedWithinGrace then ⟨none, some num, false⟩
      else ⟨killErr, some num, true⟩

/-- The grace period `halt` waits before the forced kill, in seconds. -/
def haltGraceSeconds : Nat := 10

/-- `Toolbox.containerAuthenticate`: the credential payload is
unmarshalled (`credential` is the unmarshal result, carrying the supplied
name on success); with no bound session it fails with the
not-yet-initialized error; a name differing from the bound session's ID
fails with the verification error; a matching name succeeds. -/
def containerAuthenticate (sess : Option SessionConfig)
    (credential : Except String String) : Except String Unit :=
  match credential with
  | .error e => .error e
  | .ok name =>
    match sess with
    | none => .error "not yet initialized"
    | some session =>
      if name ≠ session.ID then .error "failed to verify container ID"
      else .ok ()

/-- Outcome of `Toolbox.containerStartCommand`: the OS-style result code,
the returned error, and the signal delivered by a kill request. -/
structure StartCommandResult where
  code : Int
  err : Option String
  signaled : Option Nat
deriving Repr, DecidableEq

/-- `Toolbox.containerStartCommand`: the only handled program path is
`kill`, whose argument names the signal (empty defaults to `TERM` in
`killHelper`); any other program path is an unknown-command error; the
result code is `-1` in every case. -/
def containerStartCommand (sess : Option SessionConfig)
    (programPath arguments : String) (signalErr : Option String) :
    StartCommandResult :=
  match programPath with
  | "kill" =>
    match kill sess arguments signalErr with
    | .ok num => ⟨-1, none, some num⟩
    | .error e => ⟨-1, some e, none⟩
  | _ => ⟨-1, some ("unknown command " ++ programPath), none⟩

/-- Which arm of `Toolbox.Start`'s readiness race fired: the power-on
channel, or the one second timer. -/
inductive PowerOnWait where
  | signaled
  | timedOut
deriving Repr, DecidableEq

/-- Outcome of `Toolbox.Start`: the returned error and whether the
timeout warning was logged. -/
structure ToolboxStartResult where
  err : Option String
  warnedTimeout : Bool
deriving Repr, DecidableEq

/-- The bounded wait `Toolbox.Start` allows for the power-on event, in
seconds. -/
def toolboxStartTimeoutSeconds : Nat := 1

/-- `Toolbox.Start`: a `Service.Start` failure is returned as is;
otherwise Start waits for the power-on readiness event only up to the one
second timeout, logging a warning and returning nil if the timer fires
first, and returning nil immediately when the event arrives in time. -/
def toolboxStart (serviceStartErr : Option String) (wait : PowerOnWait) :
    ToolboxStartResult :=
  match serviceStartErr with
  | some e => ⟨some e, false⟩
  | none =>
    match wait with
    | .signaled => ⟨none, false⟩
    | .timedOut => ⟨none, true⟩

/-- The configuration snapshot as `Toolbox.Reload` reads it: the logical
ID and the (nil-able) session map; a Go map read of an absent key yields
the zero value, so the map is an association list and an absent ID reads
as `none`. -/
structure ExecutorConfig where
  ID : String
  Sessions : Option (List (String × SessionConfig))
deriving Repr, DecidableEq

/-- Go map indexing `Sessions[ID]`: the entry if present, nil otherwise. -/
def sessionsIndex (m : List (String × SessionConfig)) (id : String) :
    Option SessionConfig :=
  (m.find? (fun e => e.1 == id)).map (fun e => e.2)

/-- `Toolbox.Reload`: when the snapshot and its session map are both
non-nil the bound session becomes `config.Sessions[config.ID]` (possibly
nil, unbinding it); otherwise the bound session is left as it was.
Reload always returns nil.  The result is the new bound session and the
returned error. -/
def toolboxReload (cur : Option SessionConfig) (config : Option ExecutorConfig) :
    Option SessionConfig × Option String :=
  match config with
  | none => (cur, none)
  | some c =>
    match c.Sessions with
    | none => (cur, none)
    | some m => (sessionsIndex m c.ID, none)

/-! ## Helper lemmas -/

theorem removeChildPid_fst (table : List (Nat × SessionConfig)) (pid : Nat) :
    (removeChildPid table pid).1 = lookupPid table pid := by
  unfold removeChildPid lookupPid
  cases h : table.find? (fun e => e.1 == pid) <;> simp [h]

theorem lookupPid_removeChildPid (table : List (Nat × SessionConfig)) (pid : Nat) :
    lookupPid (removeChildPid table pid).2 pid = none := by
  unfold removeChildPid
  cases h : table.find? (fun e => e.1 == pid) with
  | none => simpa [lookupPid] using h
  | some e =>
    have hf : List.find? (fun e => e.1 == pid)
        (List.filter (fun e => e.1 != pid) table) = none := by
      rw [List.find?_eq_none]
      intro x hx
      simpa using (List.mem_filter.mp hx).2
    simp [lookupPid, hf]

theorem reapOne_waitCalls (st : DrainState) (pid status : Nat) :
    (reapOne st pid status).waitCalls = st.waitCalls + 1 := by
  unfold reapOne
  cases h : removeChildPid st.table pid with
  | mk s t' =>
    split
    · rfl
    · dsimp only
      rw [h]
      cases s <;> rfl

theorem reapOne_waitErrors (st : DrainState) (pid status : Nat) :
    (reapOne st pid status).waitErrors = st.waitErrors := by
  unfold reapOne
  cases h : removeChildPid st.table pid with
  | mk s t' =>
    split
    · rfl
    · dsimp only
      rw [h]
      cases s <;> rfl

theorem reapOne_exit_found (st : DrainState) (pid status : Nat) (s : SessionConfig)
    (hex : (statusExited status || statusSignaled status) = true)
    (hs : lookupPid st.table pid = some s) :
    reapOne st pid status =
      { st with
        waitCalls := st.waitCalls + 1
        table := (removeChildPid st.table pid).2
        exits := st.exits ++ [(pid, { s with ExitStatus := statusExitStatus status })] } := by
  have hc : (!statusExited status && !statusSignaled status) = false := by
    rw [← Bool.not_or, hex]
    rfl
  have h1 := removeChildPid_fst st.table pid
  rcases hr : removeChildPid st.table pid with ⟨os, t'⟩
  rw [hr] at h1
  rw [hs] at h1
  subst h1
  unfold reapOne
  simp [hc, hr]

theorem reapOne_exit_missing (st : DrainState) (pid status : Nat)
    (hex : (statusExited status || statusSignaled status) = true)
    (hs : lookupPid st.table pid = none) :
    reapOne st pid status =
      { st with
        waitCalls := st.waitCalls + 1
        zombieLogs := st.zombieLogs ++ [pid] } := by
  have hc : (!statusExited status && !statusSignaled status) = false := by
    rw [← Bool.not_or, hex]
    rfl
  have h1 := removeChildPid_fst st.table pid
  rcases hr : removeChildPid st.table pid with ⟨os, t'⟩
  rw [hr] at h1
  rw [hs] at h1
  subst h1
  unfold reapOne
  simp [hc, hr]

theorem reapOne_nonexit (st : DrainState) (pid status : Nat)
    (hex : (statusExited status || statusSignaled status) = false) :
    reapOne st pid status = { st with waitCalls := st.waitCalls + 1 } := by
  have hc : (!statusExited status && !statusSignaled status) = true := by
    rw [← Bool.not_or, hex]
    rfl
  unfold reapOne
  simp [hc]

theorem drain_cons_event (done : Nat → Bool) (i : Nat) (pid status : Nat)
    (rest : List WaitEvent) (st : DrainState) (h : done i = false) :
    drain done i (WaitEvent.event pid status :: rest) st =
      drain done (i + 1) rest (reapOne st pid status) := by
  simp [drain, h]

theorem foldl_reapOne_waitCalls (children : List (Nat × Nat)) :
    ∀ st : DrainState,
      (children.foldl (fun s c => reapOne s c.1 c.2) st).waitCalls =
        st.waitCalls + children.length := by
  induction children with
  | nil => intro st; rfl
  | cons c cs ih =>
    intro st
    simp only [List.foldl_cons, List.length_cons]
    rw [ih, reapOne_waitCalls]
    omega

theorem foldl_reapOne_waitErrors (children : List (Nat × Nat)) :
    ∀ st : DrainState,
      (children.foldl (fun s c => reapOne s c.1 c.2) st).waitErrors =
        st.waitErrors := by
  induction children with
  | nil => intro st; rfl
  | cons c cs ih =>
    intro st
    simp only [List.foldl_cons]
    rw [ih, reapOne_waitErrors]

theorem drain_events_run (tail : List WaitEvent) (children : List (Nat × Nat)) :
    ∀ (i : Nat) (st : DrainState),
      drain (fun _ => false) i
          (children.map (fun c => WaitEvent.event c.1 c.2) ++ tail) st =
        drain (fun _ => false) (i + children.length) tail
          (children.foldl (fun s c => reapOne s c.1 c.2) st) := by
  induction children with
  | nil => intro i st; simp
  | cons c cs ih =>
    intro i st
    simp only [List.map_cons, List.cons_append, List.foldl_cons, List.length_cons]
    rw [drain_cons_event _ _ _ _ _ _ rfl, ih]
    have harith : i + 1 + cs.length = i + (cs.length + 1) := by omega
    rw [harith]

/-! ## Claim theorems -/

/-- **C5.** The reaper shutdown procedure (`stopReaper`) performs its
three steps in the strict order: remove the SIGCHLD notifier first, then
signal the drain loop via the done channel, then close the notification
channel — the channel close never precedes the other two steps. -/
theorem stopReaper_strict_order :
    ShutdownStep.resetNotifier ∈ stopReaper ∧
    ShutdownStep.signalDone ∈ stopReaper ∧
    ShutdownStep.closeIncoming ∈ stopReaper ∧
    stopReaper.indexOf ShutdownStep.resetNotifier <
      stopReaper.indexOf ShutdownStep.signalDone ∧
    stopReaper.indexOf ShutdownStep.signalDone <
      stopReaper.indexOf ShutdownStep.closeIncoming := by
  decide

/-- **C8.** Once `Service.Start` succeeds, `Toolbox.Start` returns
success whichever arm of the readiness race fires; when the bounded
timeout fires first it logs the warning and still returns success, and
the timeout bound is positive (so the wait is bounded, never
indefinite). -/
theorem toolboxStart_bounded_wait :
    (∀ wait, (toolboxStart none wait).err = none) ∧
    (toolboxStart none PowerOnWait.timedOut).warnedTimeout = true ∧
    (toolboxStart none PowerOnWait.signaled).warnedTimeout = false ∧
    0 < toolboxStartTimeoutSeconds := by
  refine ⟨fun wait => ?_, rfl, rfl, by decide⟩
  cases wait <;> rfl

/-- **C10.** `Toolbox.Reload` leaves the bound session unchanged when the
snapshot is nil or its session map is nil; otherwise the bound session
becomes exactly the session map entry keyed by the snapshot's ID (absent
keys unbind it); and Reload always returns success. -/
theorem toolboxReload_frame (cur : Option SessionConfig) :
    toolboxReload cur none = (cur, none) ∧
    (∀ id : String, toolboxReload cur (some ⟨id, none⟩) = (cur, none)) ∧
    (∀ (id : String) (m : List (String × SessionConfig)),
      toolboxReload cur (some ⟨id, some m⟩) = (sessionsIndex m id, none)) ∧
    (∀ config : Option ExecutorConfig, (toolboxReload cur config).2 = none) := by
  refine ⟨rfl, fun id => rfl, fun id m => rfl, fun config => ?_⟩
  rcases config with _ | ⟨id, _ | m⟩ <;> rfl

/-- **C6.** `containerAuthenticate` on a well-formed credential: with no
bound session it fails with the not-initialized error; with a bound
session and a name differing from the session's logical ID it fails with
the verification (mismatch) error; with the matching name it succeeds. -/
theorem containerAuthenticate_spec :
    (∀ name : String,
      containerAuthenticate none (.ok name) = .error "not yet initialized") ∧
    (∀ (s : SessionConfig) (name : String), name ≠ s.ID →
      containerAuthenticate (some s) (.ok name) =
        .error "failed to verify container ID") ∧
    (∀ s : SessionConfig, containerAuthenticate (some s) (.ok s.ID) = .ok ()) := by
  refine ⟨fun name => rfl, fun s name h => ?_, fun s => ?_⟩
  · simp [containerAuthenticate, h]
  · simp [containerAuthenticate]

theorem containerAuthenticate_spec_witness :
    containerAuthenticate none (.ok "c1") = .error "not yet initialized" ∧
    containerAuthenticate (some ⟨"c1", "TERM", 0⟩) (.ok "c2") =
      .error "failed to verify container ID" ∧
    containerAuthenticate (some ⟨"c1", "TERM", 0⟩) (.ok "c1") = .ok () :=
  ⟨containerAuthenticate_spec.1 "c1",
   containerAuthenticate_spec.2.1 ⟨"c1", "TERM", 0⟩ "c2" (by decide),
   containerAuthenticate_spec.2.2 ⟨"c1", "TERM", 0⟩⟩

/-- **C9.** `containerStartCommand` handles only the `kill` program-path
token: a kill with an empty argument signals the bound session with the
terminate signal (15); a kill whose argument parses to a signal delivers
that signal; a kill with no bound session errors; any other token is an
unknown-command error with no signal; and the OS-style result code is
`-1` in every case. -/
theorem containerStartCommand_spec :
    (∀ (sess : Option SessionConfig) (args : String) (se : Option String)
      (p : String), p ≠ "kill" →
      containerStartCommand sess p args se =
        ⟨-1, some ("unknown command " ++ p), none⟩) ∧
    (∀ s : SessionConfig,
      containerStartCommand (some s) "kill" "" none = ⟨-1, none, some 15⟩) ∧
    (∀ (s : SessionConfig) (args : String) (n : Nat),
      signalFromString args = some n →
      containerStartCommand (some s) "kill" args none = ⟨-1, none, some n⟩) ∧
    (∀ (args : String) (se : Option String),
      containerStartCommand none "kill" args se =
        ⟨-1, some "failed to kill container: process not found", none⟩) ∧
    (∀ (sess : Option SessionConfig) (p args : String) (se : Option String),
      (containerStartCommand sess p args se).code = -1) := by
  refine ⟨fun sess args se p h => ?_, fun s => rfl,
    fun s args n h => ?_, fun args se => rfl, fun sess p args se => ?_⟩
  · unfold containerStartCommand
    split
    · exact absurd rfl h
    · rfl
  · have hne : args ≠ "" := by
      intro e
      rw [e] at h
      simp [signalFromString] at h
    simp [containerStartCommand, kill, killHelper, hne, h]
  · unfold containerStartCommand
    split
    · split <;> rfl
    · rfl

theorem containerStartCommand_spec_witness :
    containerStartCommand (some ⟨"c1", "TERM", 0⟩) "ls" "x" none =
      ⟨-1, some ("unknown command " ++ "ls"), none⟩ ∧
    containerStartCommand (some ⟨"c1", "TERM", 0⟩) "kill" "HUP" none =
      ⟨-1, none, some 1⟩ :=
  ⟨containerStartCommand_spec.1 (some ⟨"c1", "TERM", 0⟩) "x" none "ls" (by decide),
   containerStartCommand_spec.2.2.1 ⟨"c1", "TERM", 0⟩ "HUP" 1 rfl⟩

/-- **C3.** `halt` with no bound session returns an error (no signal, no
forced kill); with a bound session whose stop signal resolves (the empty
name defaulting to `TERM`) and whose signalling succeeds: if the stop
event fires within the grace period, halt returns success having sent
only the stop signal, with no forced kill; if the grace period elapses,
the process is forcibly killed and (the kill succeeding) halt still
returns no error; an empty configured stop signal delivers the terminate
signal 15; and the grace period is a positive bound. -/
theorem halt_spec :
    (∀ (se : Option String) (g : Bool) (ke : Option String),
      (halt none se g ke).err.isSome = true ∧
      (halt none se g ke).forcedKill = false ∧
      (halt none se g ke).signaled = none) ∧
    (∀ (s : SessionConfig) (n : Nat) (ke : Option String),
      signalFromString (if s.StopSignal = "" then "TERM" else s.StopSignal) = some n →
      halt (some s) none true ke = ⟨none, some n, false⟩) ∧
    (∀ (s : SessionConfig) (n : Nat),
      signalFromString (if s.StopSignal = "" then "TERM" else s.StopSignal) = some n →
      halt (some s) none false none = ⟨none, some n, true⟩) ∧
    (∀ (s : SessionConfig) (g : Bool) (ke : Option String), s.StopSignal = "" →
      (halt (some s) none g ke).signaled = some 15) ∧
    0 < haltGraceSeconds := by
  refine ⟨fun se g ke => ⟨rfl, rfl, rfl⟩, fun s n ke h => ?_,
    fun s n h => ?_, fun s g ke h => ?_, by decide⟩
  · simp [halt, killHelper, h]
  · simp [halt, killHelper, h]
  · have h15 : signalFromString
        (if s.StopSignal = "" then "TERM" else s.StopSignal) = some 15 := by
      rw [if_pos h]
      rfl
    simp only [halt, killHelper, h15]
    cases g <;> rfl

theorem halt_spec_witness :
    halt (some ⟨"c1", "KILL", 0⟩) none true none = ⟨none, some 9, false⟩ ∧
    halt (some ⟨"c1", "KILL", 0⟩) none false none = ⟨none, some 9, true⟩ ∧
    (halt (some ⟨"c1", "", 0⟩) none true none).signaled = some 15 :=
  ⟨halt_spec.2.1 ⟨"c1", "KILL", 0⟩ 9 none rfl,
   halt_spec.2.2.1 ⟨"c1", "KILL", 0⟩ 9 rfl,
   halt_spec.2.2.2.1 ⟨"c1", "", 0⟩ true none rfl⟩

/-- **C7.** A panic raised inside the per-notification handler body of
the child reaper is caught by the deferred recover and logged, and the
notification loop goes on to process the remaining notifications from the
state the body had reached — one malformed event does not terminate the
reaper. -/
theorem childReaper_recovers_panic
    (body : DrainState → DrainState × Option String)
    (st st' : DrainState) (msg : String) (rest : List Unit)
    (h : body st = (st', some msg)) :
    recoverWrap body st = (st', ["Recovered in childReaper " ++ msg]) ∧
    childReaperLoop body (() :: rest) st =
      ((childReaperLoop body rest st').1,
        ("Recovered in childReaper " ++ msg) :: (childReaperLoop body rest st').2) := by
  constructor
  · simp [recoverWrap, h]
  · simp [childReaperLoop, recoverWrap, h]

theorem childReaper_recovers_panic_witness :
    recoverWrap (fun st => (st, some "boom")) ⟨[], [], [], 0, 0⟩ =
      (⟨[], [], [], 0, 0⟩, ["Recovered in childReaper " ++ "boom"]) ∧
    childReaperLoop (fun st => (st, some "boom")) [(), ()] ⟨[], [], [], 0, 0⟩ =
      ((childReaperLoop (fun st => (st, some "boom")) [()] ⟨[], [], [], 0, 0⟩).1,
        ("Recovered in childReaper " ++ "boom") ::
          (childReaperLoop (fun st => (st, some "boom")) [()] ⟨[], [], [], 0, 0⟩).2) :=
  childReaper_recovers_panic (fun st => (st, some "boom"))
    ⟨[], [], [], 0, 0⟩ ⟨[], [], [], 0, 0⟩ "boom" [()] rfl

/-- **C1.** For every PID a reap attempt reports in the drain loop: on an
exited or killed-by-signal status the session is removed from the table
(no successful lookup by that PID afterwards); when one was found the
exit-completion callback receives it with its recorded exit status equal
to the OS-reported `ExitStatus`; when none was found only the
adopted-zombie log grows and nothing else changes; on any other state
change (stopped/continued) no removal or exit handling occurs; no case
logs a wait error; and in every case the loop goes on with the next reap
attempt. -/
theorem childReaper_exit_handling (st : DrainState) (pid status : Nat) :
    ((statusExited status || statusSignaled status) = true →
      lookupPid (reapOne st pid status).table pid = none ∧
      (∀ s : SessionConfig, lookupPid st.table pid = some s →
        (reapOne st pid status).exits =
          st.exits ++ [(pid, { s with ExitStatus := statusExitStatus status })] ∧
        (reapOne st pid status).zombieLogs = st.zombieLogs) ∧
      (lookupPid st.table pid = none →
        (reapOne st pid status).zombieLogs = st.zombieLogs ++ [pid] ∧
        (reapOne st pid status).exits = st.exits ∧
        (reapOne st pid status).table = st.table)) ∧
    ((statusExited status || statusSignaled status) = false →
      (reapOne st pid status).table = st.table ∧
      (reapOne st pid status).exits = st.exits ∧
      (reapOne st pid status).zombieLogs = st.zombieLogs) ∧
    (reapOne st pid status).waitErrors = st.waitErrors ∧
    (∀ (done : Nat → Bool) (i : Nat) (rest : List WaitEvent), done i = false →
      drain done i (WaitEvent.event pid status :: rest) st =
        drain done (i + 1) rest (reapOne st pid status)) := by
  refine ⟨fun hex => ⟨?_, fun s hs => ?_, fun hn => ?_⟩, fun hnx => ?_,
    reapOne_waitErrors st pid status, fun done i rest h => drain_cons_event done i pid status rest st h⟩
  · cases hl : lookupPid st.table pid with
    | some s =>
      rw [reapOne_exit_found st pid status s hex hl]
      exact lookupPid_removeChildPid st.table pid
    | none =>
      rw [reapOne_exit_missing st pid status hex hl]
      exact hl
  · rw [reapOne_exit_found st pid status s hex hs]
    exact ⟨rfl, rfl⟩
  · rw [reapOne_exit_missing st pid status hex hn]
    exact ⟨rfl, rfl, rfl⟩
  · rw [reapOne_nonexit st pid status hnx]
    exact ⟨rfl, rfl, rfl⟩

theorem childReaper_exit_handling_witness :
    lookupPid (reapOne ⟨[(5, ⟨"s5", "TERM", 7⟩)], [], [], 0, 0⟩ 5 0).table 5 = none ∧
    (reapOne ⟨[(5, ⟨"s5", "TERM", 7⟩)], [], [], 0, 0⟩ 5 0).exits =
      [] ++ [(5, ⟨"s5", "TERM", statusExitStatus 0⟩)] ∧
    (reapOne ⟨[(5, ⟨"s5", "TERM", 7⟩)], [], [], 0, 0⟩ 9 15).zombieLogs = [] ++ [9] ∧
    (reapOne ⟨[(5, ⟨"s5", "TERM", 7⟩)], [], [], 0, 0⟩ 5 0x137f).exits = [] :=
  ⟨((childReaper_exit_handling ⟨[(5, ⟨"s5", "TERM", 7⟩)], [], [], 0, 0⟩ 5 0).1
      (by decide)).1,
   (((childReaper_exit_handling ⟨[(5, ⟨"s5", "TERM", 7⟩)], [], [], 0, 0⟩ 5 0).1
      (by decide)).2.1 ⟨"s5", "TERM", 7⟩ rfl).1,
   (((childReaper_exit_handling ⟨[(5, ⟨"s5", "TERM", 7⟩)], [], [], 0, 0⟩ 9 15).1
      (by decide)).2.2 rfl).1,
   (((childReaper_exit_handling ⟨[(5, ⟨"s5", "TERM", 7⟩)], [], [], 0, 0⟩ 5 0x137f).2.1
      (by decide)).2.1)⟩

/-- **C2.** A drain pass with no shutdown request reaps every child that
has already exited before suspending again: a wait stream of N
termination events followed by the no-more-children result handles all N
in this single wake-up (the result is exactly the fold of the per-PID
handler, with N+1 wait calls made); the `ECHILD` stream produces the very
same outcome as the PID-0 stream; and neither loop exit logs a wait
error. -/
theorem drain_exhaustive_per_wakeup (children : List (Nat × Nat))
    (st : DrainState) (i : Nat) :
    drain (fun _ => false) i
        (children.map (fun c => WaitEvent.event c.1 c.2) ++ [WaitEvent.noChild]) st =
      { children.foldl (fun s c => reapOne s c.1 c.2) st with
        waitCalls := (children.foldl (fun s c => reapOne s c.1 c.2) st).waitCalls + 1 } ∧
    (drain (fun _ => false) i
        (children.map (fun c => WaitEvent.event c.1 c.2) ++ [WaitEvent.noChild]) st).waitCalls =
      st.waitCalls + children.length + 1 ∧
    drain (fun _ => false) i
        (children.map (fun c => WaitEvent.event c.1 c.2) ++ [WaitEvent.echild]) st =
      drain (fun _ => false) i
        (children.map (fun c => WaitEvent.event c.1 c.2) ++ [WaitEvent.noChild]) st ∧
    (drain (fun _ => false) i
        (children.map (fun c => WaitEvent.event c.1 c.2) ++ [WaitEvent.noChild]) st).waitErrors =
      st.waitErrors := by
  have hnc : drain (fun _ => false) i
      (children.map (fun c => WaitEvent.event c.1 c.2) ++ [WaitEvent.noChild]) st =
      { children.foldl (fun s c => reapOne s c.1 c.2) st with
        waitCalls := (children.foldl (fun s c => reapOne s c.1 c.2) st).waitCalls + 1 } := by
    rw [drain_events_run]
    simp [drain]
  refine ⟨hnc, ?_, ?_, ?_⟩
  · rw [hnc]
    have := foldl_reapOne_waitCalls children st
    simp only []
    omega
  · rw [drain_events_run, drain_events_run]
    simp [drain]
  · rw [hnc]
    have := foldl_reapOne_waitErrors children st
    simpa using this

/-- **C4.** The drain loop consults the shutdown indicator before each
reap attempt: whenever shutdown is observed at the head of an iteration
the drain returns at once with the state untouched (so no further reap
attempt happens in that pass), and with shutdown requested from step `j`
onward an entire drain starting at step `i` performs at most `j - i`
further wait calls, however many reapable children remain queued. -/
theorem drain_shutdown_abort (j : Nat) :
    (∀ (done : Nat → Bool) (i : Nat) (evs : List WaitEvent) (st : DrainState),
      done i = true → drain done i evs st = st) ∧
    (∀ (i : Nat) (evs : List WaitEvent) (st : DrainState),
      (drain (fun n => decide (j ≤ n)) i evs st).waitCalls ≤
        st.waitCalls + (j - i)) := by
  constructor
  · intro done i evs st h
    cases evs with
    | nil => rfl
    | cons ev rest => simp [drain, h]
  · intro i evs st
    induction evs generalizing i st with
    | nil => simp [drain]
    | cons ev rest ih =>
      by_cases hj : j ≤ i
      · rw [show drain (fun n => decide (j ≤ n)) i (ev :: rest) st = st from by
          simp [drain, hj]]
        omega
      · have hj' : (fun n => decide (j ≤ n)) i = false := by simp [hj]
        cases ev with
        | noChild =>
          rw [show drain (fun n => decide (j ≤ n)) i (WaitEvent.noChild :: rest) st =
            { st with waitCalls := st.waitCalls + 1 } from by simp [drain, hj]]
          simp only []
          omega
        | echild =>
          rw [show drain (fun n => decide (j ≤ n)) i (WaitEvent.echild :: rest) st =
            { st with waitCalls := st.waitCalls + 1 } from by simp [drain, hj]]
          simp only []
          omega
        | waitErr =>
          rw [show drain (fun n => decide (j ≤ n)) i (WaitEvent.waitErr :: rest) st =
            { st with waitCalls := st.waitCalls + 1, waitErrors := st.waitErrors + 1 } from by
              simp [drain, hj]]
          simp only []
          omega
        | event pid status =>
          rw [drain_cons_event _ _ _ _ _ _ hj']
          have hrec := ih (i + 1) (reapOne st pid status)
          rw [reapOne_waitCalls] at hrec
          omega

theorem drain_shutdown_abort_witness :
    drain (fun _ => true) 3 [WaitEvent.noChild] ⟨[], [], [], 0, 0⟩ =
      (⟨[], [], [], 0, 0⟩ : DrainState) ∧
    (drain (fun n => decide (2 ≤ n)) 0
        [WaitEvent.event 5 0, WaitEvent.event 6 0, WaitEvent.event 7 0]
        ⟨[], [], [], 0, 0⟩).waitCalls ≤
      (⟨[], [], [], 0, 0⟩ : DrainState).waitCalls + (2 - 0) :=
  ⟨(drain_shutdown_abort 0).1 (fun _ => true) 3 [WaitEvent.noChild]
      ⟨[], [], [], 0, 0⟩ rfl,
   (drain_shutdown_abort 2).2 0
      [WaitEvent.event 5 0, WaitEvent.event 6 0, WaitEvent.event 7 0]
      ⟨[], [], [], 0, 0⟩⟩

end Vic.Tether
